import Mathlib

/-!
Verification of the geospatial sector/intersection/containment/drift core of
the repository against its natural-language specification.

The planar containment and polygon bookkeeping work over `ℚ` (the Python code
computes with floating-point literals; rationals give the same algebraic
semantics and keep every test decidable).  The trigonometric components
(bearing, sector polygon, wind drift) are embedded over `ℝ` with `Real.sin`,
`Real.cos` and an `atan2` matching Python's `math.atan2`.
-/

namespace PyTest

/-- A geographic point as a `[lat, lon]` pair, over `ℚ`. -/
abbrev QPoint := ℚ × ℚ

/-- One step of the ray-casting loop of `point_in_polygon`
(src/canister_trajectory_analysis.py lines 141-159 and the identical copy in
src/refined_canister_analysis.py lines 185-203).  The state is the previous
vertex `p1` together with the `inside` flag; the step processes the next
vertex `p2`.  The Python conditional reads a stale `xinters` only when
`p1y = p2y`, a branch that is unreachable under `min p1y p2y < y ≤ max p1y p2y`,
so the toggle condition is stateless. -/
def pipStep (pt : QPoint) : QPoint × Bool → QPoint → QPoint × Bool :=
  fun s p2 =>
    let x := pt.1
    let y := pt.2
    let p1 := s.1
    let inside := s.2
    let xinters := (y - p1.2) * (p2.1 - p1.1) / (p2.2 - p1.2) + p1.1
    if min p1.2 p2.2 < y ∧ y ≤ max p1.2 p2.2 ∧ x ≤ max p1.1 p2.1 ∧
        (p1.1 = p2.1 ∨ x ≤ xinters) then
      (p2, !inside)
    else
      (p2, inside)

/-- Ray-casting point-in-polygon test, from `point_in_polygon` in
src/canister_trajectory_analysis.py lines 141-159 (src/refined_canister_analysis.py
holds a byte-identical copy).  `point = [lat, lon]`; the loop starts at
`p1 = polygon[0]` and visits `p2 = polygon[i % n]` for `i = 1, ..., n`, i.e.
the vertices `rest ++ [v]` of `polygon = v :: rest`.  The source indexes
`polygon[0]` unguarded, so the empty list never occurs in source usage; it is
mapped to `false`. -/
def point_in_polygon (pt : QPoint) (polygon : List QPoint) : Bool :=
  match polygon with
  | [] => false
  | v :: rest => ((rest ++ [v]).foldl (pipStep pt) (v, false)).2

/-- Sign of a rational number, used by the modelled polygon expansion. -/
def qsgn (x : ℚ) : ℚ :=
  if 0 < x then 1 else if x < 0 then -1 else 0

/-- Modelled from the spec: the polygon buffering in
src/comprehensive_veil_search.py line 31 is performed by the external Shapely
library (`wedge_polygon.buffer(buffer_degrees)`), whose algorithm is not part
of this repository.  Following section 4.5, the polygon is expanded outward
uniformly in both axes by the converted buffer distance: each vertex moves
away from the vertex centroid by `d` in each axis.  Expansion by `0` is the
identity, matching Shapely's zero-distance buffer of a valid polygon. -/
def expandPolygon (poly : List QPoint) (d : ℚ) : List QPoint :=
  let n : ℚ := poly.length
  let cx := (poly.map Prod.fst).sum / n
  let cy := (poly.map Prod.snd).sum / n
  poly.map fun v => (v.1 + d * qsgn (v.1 - cx), v.2 + d * qsgn (v.2 - cy))

/-- Buffered containment, from `is_inside_wedge_with_buffer` in
src/comprehensive_veil_search.py lines 21-32: return `true` if the point is
inside the wedge, otherwise test the wedge buffered by
`buffer_degrees = buffer_km * 0.01`.  The external Shapely `contains` is
modelled from the spec (section 4.5) as the repository's own ray-casting
test, and the external Shapely `buffer` as `expandPolygon`. -/
def is_inside_wedge_with_buffer (lat lon : ℚ) (wedge_polygon : List QPoint)
    (buffer_km : ℚ) : Bool :=
  if point_in_polygon (lat, lon) wedge_polygon then true
  else
    point_in_polygon (lat, lon) (expandPolygon wedge_polygon (buffer_km * (1 / 100)))

/-- The planar region enclosed by a polygon, membership decided by the
repository's ray-casting test. -/
def polyRegion (poly : List QPoint) : Set QPoint :=
  {p | point_in_polygon p poly = true}

/-- Twice the signed area of triangle `a b c`; its sign gives the orientation
of the triple. -/
def orient2 (a b c : QPoint) : ℚ :=
  (b.1 - a.1) * (c.2 - a.2) - (b.2 - a.2) * (c.1 - a.1)

/-- `c` lies on the closed segment from `a` to `b`. -/
def onSegment (a b c : QPoint) : Bool :=
  orient2 a b c = 0 ∧ min a.1 b.1 ≤ c.1 ∧ c.1 ≤ max a.1 b.1 ∧
    min a.2 b.2 ≤ c.2 ∧ c.2 ≤ max a.2 b.2

/-- The closed segments `p1 p2` and `q1 q2` have a common point
(standard orientation test plus the collinear touching cases). -/
def segsIntersect (s t : QPoint × QPoint) : Bool :=
  let o1 := orient2 s.1 s.2 t.1
  let o2 := orient2 s.1 s.2 t.2
  let o3 := orient2 t.1 t.2 s.1
  let o4 := orient2 t.1 t.2 s.2
  (((0 < o1 ∧ o2 < 0) ∨ (o1 < 0 ∧ 0 < o2)) ∧
    ((0 < o3 ∧ o4 < 0) ∨ (o3 < 0 ∧ 0 < o4)) : Bool) ||
  onSegment s.1 s.2 t.1 || onSegment s.1 s.2 t.2 ||
  onSegment t.1 t.2 s.1 || onSegment t.1 t.2 s.2

/-- Modelled from the spec: a simple closed polygon in the sense of sections
3 and 4.4 — explicitly closed (`first == last`), at least 4 points, and no
two non-adjacent boundary edges share a point.  The repository itself only
consumes simplicity through the external Shapely `is_valid`. -/
def isSimplePolygonB (poly : List QPoint) : Bool :=
  let es := poly.zip poly.tail
  let n := es.length
  decide (poly.head? = poly.getLast?) && decide (4 ≤ poly.length) &&
  (List.range n).all fun i => (List.range n).all fun j =>
    if i + 1 < j ∧ ¬(i = 0 ∧ j = n - 1) then
      !(segsIntersect (es.getD i ((0, 0), (0, 0))) (es.getD j ((0, 0), (0, 0))))
    else true

/-- The result shape of the polygon intersection of section 4.4. -/
structure IntersectionResult where
  overlapRegion : Set QPoint
  isSimplePolygon : Prop

/-- Modelled from the spec: the geometric intersection in
src/calculate_intersection.py lines 104-129 is performed by the external
Shapely library (`day_15_polygon.intersection(day_18_polygon)`), whose
clipping algorithm is not part of this repository.  Following section 4.4,
the overlap is the planar intersection of the two polygons' regions, and
`isSimplePolygon` holds exactly when that overlap is the region of a single
simple closed polygon. -/
def intersectPolygons (a b : List QPoint) : IntersectionResult where
  overlapRegion := polyRegion a ∩ polyRegion b
  isSimplePolygon :=
    ∃ q, isSimplePolygonB q = true ∧ polyRegion q = polyRegion a ∩ polyRegion b

/-- Python's `math.radians`. -/
noncomputable def radians (d : ℝ) : ℝ := d * Real.pi / 180

/-- Python's `math.degrees`. -/
noncomputable def degrees (r : ℝ) : ℝ := r * 180 / Real.pi

/-- Python's `math.atan2` on real arguments: the angle of the vector `(x, y)`
in `(-pi, pi]`, with `atan2 0 0 = 0` as in CPython. -/
noncomputable def atan2 (y x : ℝ) : ℝ :=
  if 0 < x then Real.arctan (y / x)
  else if x < 0 then
    (if 0 ≤ y then Real.arctan (y / x) + Real.pi else Real.arctan (y / x) - Real.pi)
  else
    (if 0 < y then Real.pi / 2 else if y < 0 then -(Real.pi / 2) else 0)

/-- Python's float `%` operator for a nonzero right operand:
`a % b = a - b * floor(a / b)`. -/
noncomputable def pymod (a b : ℝ) : ℝ := a - b * ⌊a / b⌋

/-- Bearing between two points, from `calculate_bearing` in
src/refined_canister_analysis.py lines 114-130 (the same formula appears in
`calculate_trajectory_bearing` in src/canister_trajectory_analysis.py and
inline in src/main.py). -/
noncomputable def calculate_bearing (lat1 lon1 lat2 lon2 : ℝ) : ℝ :=
  let lat1_rad := radians lat1
  let lat2_rad := radians lat2
  let lon1_rad := radians lon1
  let lon2_rad := radians lon2
  let dlon := lon2_rad - lon1_rad
  let y := Real.sin dlon * Real.cos lat2_rad
  let x := Real.cos lat1_rad * Real.sin lat2_rad -
    Real.sin lat1_rad * Real.cos lat2_rad * Real.cos dlon
  pymod (degrees (atan2 y x) + 360) 360

/-- The raw (radian, un-normalized) center bearing of a sector, including the
rotation, from src/main.py lines 203-216. -/
noncomputable def sector_bearing_center (center_lat center_lon bearing_lat
    bearing_lon rotation_degrees : ℝ) : ℝ :=
  let lat1 := radians center_lat
  let lon1 := radians center_lon
  let lat2 := radians bearing_lat
  let lon2 := radians bearing_lon
  let dlon := lon2 - lon1
  atan2 (Real.sin dlon * Real.cos lat2)
    (Real.cos lat1 * Real.sin lat2 - Real.sin lat1 * Real.cos lat2 * Real.cos dlon) +
  radians rotation_degrees

/-- A point of the sector polygon: offset from the center by `radius_deg`
degrees at (radian) bearing `b`, with the longitude scaled by the cosine of
the center latitude, from src/main.py lines 238-243. -/
noncomputable def sector_point (center_lat center_lon radius_deg b : ℝ) : ℝ × ℝ :=
  (center_lat + radius_deg * Real.cos b,
   center_lon + radius_deg * Real.sin b / Real.cos (radians center_lat))

/-- Sector polygon generator, from `create_sector_polygon` in src/main.py
lines 179-265: 21 points along the inner radius from the left bearing to the
right bearing, 21 points along the outer radius from the right bearing back
to the left bearing, and one closing point back at the start of the inner
arc.  The source performs no input validation. -/
noncomputable def create_sector_polygon (center_lat center_lon bearing_lat
    bearing_lon width_degrees min_radius_miles max_radius_miles
    rotation_degrees : ℝ) : List (ℝ × ℝ) :=
  let bearing_center := sector_bearing_center center_lat center_lon bearing_lat
    bearing_lon rotation_degrees
  let half_width := radians (width_degrees / 2)
  let bearing_left := bearing_center - half_width
  let bearing_right := bearing_center + half_width
  let min_radius_deg := min_radius_miles / 69
  let max_radius_deg := max_radius_miles / 69
  ((List.range 21).map fun i : ℕ =>
    sector_point center_lat center_lon min_radius_deg
      (bearing_left + (bearing_right - bearing_left) * (i : ℝ) / 20)) ++
  ((List.range 21).map fun i : ℕ =>
    sector_point center_lat center_lon max_radius_deg
      (bearing_right - (bearing_right - bearing_left) * (i : ℝ) / 20)) ++
  [sector_point center_lat center_lon min_radius_deg bearing_left]

/-- The degrees-per-meter latitude factor used by both wind-drift projectors:
`lat_per_meter = 1.0 / 111000.0`, from src/canister_trajectory_analysis.py
line 100 and src/refined_canister_analysis.py line 143. -/
noncomputable def lat_per_meter : ℝ := 1 / 111000

/-- Miles-to-latitude-degrees converter of spec section 4.2 as it appears in
the source: `min_radius_deg = min_radius_miles / 69.0`, src/main.py line 226
(also lines 227, 334, 335, 556, 557). -/
noncomputable def milesToLatitudeDegrees (miles : ℝ) : ℝ := miles / 69

/-- The meters-to-latitude-degrees factor induced by the section 4.2
converter, using the repository's miles-to-meters constant `1609.344`
(src/main.py line 413). -/
noncomputable def metersToLatitudeDegrees (meters : ℝ) : ℝ :=
  milesToLatitudeDegrees (meters / 1609.344)

/-- The wind fields of the Day 16 conditions dictionary consumed by
`calculate_canister_drift` (src/canister_trajectory_analysis.py lines 31-42):
tailwind and crosswind in mph and the aircraft bearing in degrees. -/
structure WindConditions where
  tailwind : ℝ
  crosswind : ℝ
  bearing : ℝ

/-- The dictionary returned by `calculate_canister_drift`
(src/canister_trajectory_analysis.py lines 127-138). -/
structure DriftResult where
  landing_lat : ℝ
  landing_lon : ℝ
  fall_time_seconds : ℝ
  tailwind_m : ℝ
  crosswind_m : ℝ
  total_lat_drift : ℝ
  total_lon_drift : ℝ

/-- Wind-drift ballistic projector, from `calculate_canister_drift` in
src/canister_trajectory_analysis.py lines 71-138.  The terminal velocity is
the source's hard-coded `50` m/s and the fall model is
`fall_time = altitude_ft * 0.3048 / 50`. -/
noncomputable def calculate_canister_drift (start_lat start_lon altitude_ft : ℝ)
    (wind_conditions : WindConditions) : DriftResult :=
  let altitude_m := altitude_ft * 0.3048
  let terminal_velocity : ℝ := 50
  let fall_time := altitude_m / terminal_velocity
  let tailwind_ms := wind_conditions.tailwind * 0.44704
  let crosswind_ms := wind_conditions.crosswind * 0.44704
  let aircraft_bearing := wind_conditions.bearing
  let tailwind_drift_m := tailwind_ms * fall_time
  let crosswind_bearing := pymod (aircraft_bearing + 90) 360
  let crosswind_drift_m := crosswind_ms * fall_time
  let lon_per_meter := 1 / (111000 * Real.cos (radians start_lat))
  let tailwind_lat_drift :=
    tailwind_drift_m * Real.cos (radians aircraft_bearing) * lat_per_meter
  let tailwind_lon_drift :=
    tailwind_drift_m * Real.sin (radians aircraft_bearing) * lon_per_meter
  let crosswind_lat_drift :=
    crosswind_drift_m * Real.cos (radians crosswind_bearing) * lat_per_meter
  let crosswind_lon_drift :=
    crosswind_drift_m * Real.sin (radians crosswind_bearing) * lon_per_meter
  let total_lat_drift := tailwind_lat_drift + crosswind_lat_drift
  let total_lon_drift := tailwind_lon_drift + crosswind_lon_drift
  { landing_lat := start_lat + total_lat_drift
    landing_lon := start_lon + total_lon_drift
    fall_time_seconds := fall_time
    tailwind_m := tailwind_drift_m
    crosswind_m := crosswind_drift_m
    total_lat_drift := total_lat_drift
    total_lon_drift := total_lon_drift }

/-- The landing point computed by `calculate_drift_scenario` in
src/refined_canister_analysis.py lines 133-165: the drift of wind component
`wind1_ms` along `aircraft_bearing` plus the drift of `wind2_ms` along
`aircraft_bearing + 90 (mod 360)`, converted to degrees with the same
`1 / 111000` factor. -/
noncomputable def calculate_drift_scenario_landing (start_lat start_lon
    fall_time aircraft_bearing wind1_ms wind2_ms : ℝ) : ℝ × ℝ :=
  let wind1_drift_m := wind1_ms * fall_time
  let wind2_drift_m := wind2_ms * fall_time
  let lon_per_meter := 1 / (111000 * Real.cos (radians start_lat))
  let primary_lat_drift :=
    wind1_drift_m * Real.cos (radians aircraft_bearing) * lat_per_meter
  let primary_lon_drift :=
    wind1_drift_m * Real.sin (radians aircraft_bearing) * lon_per_meter
  let secondary_bearing := pymod (aircraft_bearing + 90) 360
  let secondary_lat_drift :=
    wind2_drift_m * Real.cos (radians secondary_bearing) * lat_per_meter
  let secondary_lon_drift :=
    wind2_drift_m * Real.sin (radians secondary_bearing) * lon_per_meter
  (start_lat + primary_lat_drift + secondary_lat_drift,
   start_lon + primary_lon_drift + secondary_lon_drift)

/-! ### Helper lemmas -/

lemma expandPolygon_zero (poly : List QPoint) : expandPolygon poly 0 = poly := by
  simp [expandPolygon]

lemma pipStep_fst (pt : QPoint) (s : QPoint × Bool) (p2 : QPoint) :
    (pipStep pt s p2).1 = p2 := by
  unfold pipStep
  dsimp only
  split <;> rfl

lemma pip_foldl_concat_fst (pt : QPoint) (l : List QPoint) (init : QPoint × Bool)
    (a : QPoint) : ((l ++ [a]).foldl (pipStep pt) init).1 = a := by
  rw [List.foldl_append]
  exact pipStep_fst pt _ a

lemma pipStep_degenerate (pt p : QPoint) (b : Bool) : pipStep pt (p, b) p = (p, b) := by
  unfold pipStep
  dsimp only
  rw [if_neg]
  rintro ⟨h1, h2, -⟩
  rw [min_self] at h1
  rw [max_self] at h2
  exact absurd (lt_of_lt_of_le h1 h2) (lt_irrefl _)

/-! ### Claims about the containment tester -/

/-- C10: the ray-casting containment tester is insensitive to explicit closure
of its input: for every point and every vertex list with at least one vertex,
`point_in_polygon` returns the same boolean whether or not the list repeats
its first vertex as a final closing vertex. -/
theorem point_in_polygon_closure_insensitive (pt v : QPoint) (rest : List QPoint) :
    point_in_polygon pt ((v :: rest) ++ [v]) = point_in_polygon pt (v :: rest) := by
  have hfst := pip_foldl_concat_fst pt rest (v, false) v
  show (((rest ++ [v]) ++ [v]).foldl (pipStep pt) (v, false)).2 =
    ((rest ++ [v]).foldl (pipStep pt) (v, false)).2
  rw [List.foldl_append]
  set r := (rest ++ [v]).foldl (pipStep pt) (v, false) with hr
  have hre : r = (v, r.2) := Prod.ext hfst rfl
  rw [show List.foldl (pipStep pt) r [v] = pipStep pt r v from rfl]
  conv_lhs => rw [hre]
  rw [pipStep_degenerate]

/-- C9: buffered containment with a zero buffer is the plain containment
test: for every point and every polygon, `is_inside_wedge_with_buffer` with
buffer `0` returns exactly `point_in_polygon`. -/
theorem buffer_zero_is_plain_containment (lat lon : ℚ) (wedge : List QPoint) :
    is_inside_wedge_with_buffer lat lon wedge 0 = point_in_polygon (lat, lon) wedge := by
  unfold is_inside_wedge_with_buffer
  rw [show (0 : ℚ) * (1 / 100) = 0 by norm_num, expandPolygon_zero]
  cases hpt : point_in_polygon (lat, lon) wedge <;> simp [hpt]

/-- C8: intersection is idempotent: for every simple closed polygon `P`,
intersecting `P` with itself yields an overlap whose region is exactly the
region of `P`, and the overlap is a single simple polygon. -/
theorem intersect_self_idempotent (P : List QPoint) (hP : isSimplePolygonB P = true) :
    (intersectPolygons P P).overlapRegion = polyRegion P ∧
    (intersectPolygons P P).isSimplePolygon :=
  ⟨Set.inter_self _, ⟨P, hP, (Set.inter_self _).symm⟩⟩

/-- Witness for C8: the unit square is a simple closed polygon, and
intersecting it with itself returns its own region as a simple overlap. -/
theorem intersect_self_idempotent_witness :
    isSimplePolygonB [((0 : ℚ), (0 : ℚ)), (0, 1), (1, 1), (1, 0), (0, 0)] = true ∧
    ((intersectPolygons [((0 : ℚ), (0 : ℚ)), (0, 1), (1, 1), (1, 0), (0, 0)]
        [((0 : ℚ), (0 : ℚ)), (0, 1), (1, 1), (1, 0), (0, 0)]).overlapRegion =
      polyRegion [((0 : ℚ), (0 : ℚ)), (0, 1), (1, 1), (1, 0), (0, 0)] ∧
     (intersectPolygons [((0 : ℚ), (0 : ℚ)), (0, 1), (1, 1), (1, 0), (0, 0)]
        [((0 : ℚ), (0 : ℚ)), (0, 1), (1, 1), (1, 0), (0, 0)]).isSimplePolygon) :=
  ⟨by simp [isSimplePolygonB, segsIntersect, onSegment, orient2, List.range_succ],
   intersect_self_idempotent _
     (by simp [isSimplePolygonB, segsIntersect, onSegment, orient2, List.range_succ])⟩

/-! ### Helper lemmas about the float modulo -/

lemma pymod_eq_of (a b r : ℝ) (k : ℤ) (hb : 0 < b) (h : a = b * k + r)
    (h0 : 0 ≤ r) (h1 : r < b) : pymod a b = r := by
  have hbne : b ≠ 0 := hb.ne'
  have hdiv : a / b = (k : ℝ) + r / b := by
    rw [h, add_div, mul_comm b (k : ℝ), mul_div_assoc, div_self hbne, mul_one]
  have hfrac0 : ⌊r / b⌋ = 0 := by
    rw [Int.floor_eq_zero_iff, Set.mem_Ico]
    exact ⟨div_nonneg h0 hb.le, (div_lt_one hb).mpr h1⟩
  have hfl : ⌊a / b⌋ = k := by
    rw [hdiv, Int.floor_int_add, hfrac0, add_zero]
  unfold pymod
  rw [hfl, h]
  ring

lemma pymod_bounds (a b : ℝ) (hb : 0 < b) : 0 ≤ pymod a b ∧ pymod a b < b := by
  have hbne : b ≠ 0 := hb.ne'
  have hle := Int.floor_le (a / b)
  have hlt := Int.lt_floor_add_one (a / b)
  have ha : b * (a / b) = a := by
    field_simp
  constructor
  · have := mul_le_mul_of_nonneg_left hle hb.le
    rw [ha] at this
    unfold pymod
    linarith
  · have := mul_lt_mul_of_pos_left hlt hb
    rw [ha] at this
    unfold pymod
    linarith

/-! ### Claims about the sector polygon generator's totality -/

lemma create_sector_polygon_length (center_lat center_lon bearing_lat bearing_lon
    width_degrees min_radius_miles max_radius_miles rotation_degrees : ℝ) :
    (create_sector_polygon center_lat center_lon bearing_lat bearing_lon
      width_degrees min_radius_miles max_radius_miles rotation_degrees).length = 43 := by
  simp [create_sector_polygon]

/-- C2 (counterexample): with `widthDegrees = 0` --- an invalid width per the
claim --- `create_sector_polygon` still returns a 43-point polygon; no
`InvalidSectorError` is raised (no such error exists in the code). -/
theorem create_sector_polygon_invalid_width_counterexample :
    (create_sector_polygon 40 (-74) 41 (-74) 0 10 25 0).length = 43 :=
  create_sector_polygon_length 40 (-74) 41 (-74) 0 10 25 0

/-- C2 (amended): the sector polygon generator performs no input validation:
for every input, including `widthDegrees ≤ 0`, `widthDegrees ≥ 360` and
`maxRadiusMiles ≤ minRadiusMiles`, it returns a 43-point polygon and never
fails. -/
theorem create_sector_polygon_never_fails (center_lat center_lon bearing_lat
    bearing_lon width_degrees min_radius_miles max_radius_miles
    rotation_degrees : ℝ) :
    (create_sector_polygon center_lat center_lon bearing_lat bearing_lon
      width_degrees min_radius_miles max_radius_miles rotation_degrees).length = 43 :=
  create_sector_polygon_length center_lat center_lon bearing_lat bearing_lon
    width_degrees min_radius_miles max_radius_miles rotation_degrees

/-! ### Claims about the wind-drift projector -/

/-- C5: with `releaseAltitudeFeet = 65000`, the source's terminal velocity of
`50` m/s and both wind components zero, the projector yields
`fallTimeSeconds = 65000 * 0.3048 / 50 = 396.24` and a landing point equal to
the release point, for every release point and aircraft bearing. -/
theorem zero_wind_projects_release_point (start_lat start_lon b : ℝ) :
    (calculate_canister_drift start_lat start_lon 65000 ⟨0, 0, b⟩).fall_time_seconds
      = 396.24 ∧
    (calculate_canister_drift start_lat start_lon 65000 ⟨0, 0, b⟩).landing_lat
      = start_lat ∧
    (calculate_canister_drift start_lat start_lon 65000 ⟨0, 0, b⟩).landing_lon
      = start_lon := by
  refine ⟨?_, ?_, ?_⟩
  · simp [calculate_canister_drift]
    norm_num
  · simp [calculate_canister_drift]
  · simp [calculate_canister_drift]

/-- C4 shared fact: the two latitude conversion factors differ. -/
lemma lat_factor_ne : lat_per_meter ≠ metersToLatitudeDegrees 1 := by
  unfold lat_per_meter metersToLatitudeDegrees milesToLatitudeDegrees
  norm_num

/-- C4 (counterexample): for a drift of one meter, the drift code's latitude
factor `1 / 111000` is not the section-4.2 converter's factor
`1 / (69 * 1609.344)`. -/
theorem drift_factor_counterexample : lat_per_meter ≠ metersToLatitudeDegrees 1 :=
  lat_factor_ne

/-- C4 (amended): both wind-drift projectors convert each meter of drift to
latitude degrees with the factor `lat_per_meter = 1 / 111000`, which is a
re-derived constant different from the section-4.2 converter's factor
`1 / (69 * 1609.344) = 1 / 111044.736`. -/
theorem drift_factor_differs_from_converter :
    (∀ lat lon alt t : ℝ,
      (calculate_canister_drift lat lon alt ⟨t, 0, 0⟩).total_lat_drift =
        t * 0.44704 * (alt * 0.3048 / 50) * lat_per_meter) ∧
    (∀ lat lon ft w : ℝ,
      (calculate_drift_scenario_landing lat lon ft 0 w 0).1 =
        lat + w * ft * lat_per_meter) ∧
    lat_per_meter = 1 / 111000 ∧
    metersToLatitudeDegrees 1 = 1 / 111044.736 ∧
    lat_per_meter ≠ metersToLatitudeDegrees 1 := by
  refine ⟨?_, ?_, ?_, ?_, lat_factor_ne⟩
  · intro lat lon alt t
    simp [calculate_canister_drift, radians, Real.cos_zero]
  · intro lat lon ft w
    simp [calculate_drift_scenario_landing, radians, Real.cos_zero]
  · rfl
  · unfold metersToLatitudeDegrees milesToLatitudeDegrees
    norm_num

/-! ### Helper lemmas about the bearing function -/

lemma radians_zero : radians 0 = 0 := by
  simp [radians]

lemma radians_45 : radians 45 = Real.pi / 4 := by
  unfold radians
  ring

lemma radians_90 : radians 90 = Real.pi / 2 := by
  unfold radians
  ring

lemma degrees_zero : degrees 0 = 0 := by
  simp [degrees]

lemma degrees_pi : degrees Real.pi = 180 := by
  unfold degrees
  rw [mul_comm, mul_div_assoc, div_self Real.pi_ne_zero, mul_one]

lemma atan2_zero_zero : atan2 0 0 = 0 := by
  simp [atan2]

lemma pymod_360_360 : pymod (0 + 360) 360 = 0 := by
  apply pymod_eq_of _ _ _ 1 (by norm_num) ?_ le_rfl (by norm_num)
  push_cast
  ring

lemma pymod_405_360 : pymod (45 + 360) 360 = 45 := by
  apply pymod_eq_of _ _ _ 1 (by norm_num) ?_ (by norm_num) (by norm_num)
  push_cast
  ring

lemma pymod_270_360 : pymod (-90 + 360) 360 = 270 := by
  apply pymod_eq_of _ _ _ 0 (by norm_num) ?_ (by norm_num) (by norm_num)
  push_cast
  ring

lemma pymod_540_360 : pymod (180 + 360) 360 = 180 := by
  apply pymod_eq_of _ _ _ 1 (by norm_num) ?_ (by norm_num) (by norm_num)
  push_cast
  ring

lemma calculate_bearing_self (lat lon : ℝ) : calculate_bearing lat lon lat lon = 0 := by
  have hy : Real.sin (radians lon - radians lon) * Real.cos (radians lat) = 0 := by
    rw [sub_self, Real.sin_zero, zero_mul]
  have hx : Real.cos (radians lat) * Real.sin (radians lat) -
      Real.sin (radians lat) * Real.cos (radians lat) *
        Real.cos (radians lon - radians lon) = 0 := by
    rw [sub_self, Real.cos_zero]
    ring
  simp only [calculate_bearing]
  rw [hy, hx, atan2_zero_zero, degrees_zero, pymod_360_360]

/-! ### Claims about the bearing function -/

/-- C3 (counterexample): at the concrete point `(40, -74)` the bearing of a
point to itself returns the number `0` --- no `DegenerateInputError` is
raised (no such error exists in the code). -/
theorem calculate_bearing_degenerate_counterexample :
    calculate_bearing 40 (-74) 40 (-74) = 0 :=
  calculate_bearing_self 40 (-74)

/-- C3 (amended): `calculate_bearing` performs no degenerate-input check: for
every point `p`, `calculate_bearing p p` returns the number `0`
(`atan2(0, 0) = 0`, normalized), instead of failing. -/
theorem calculate_bearing_no_degenerate_error (lat lon : ℝ) :
    calculate_bearing lat lon lat lon = 0 :=
  calculate_bearing_self lat lon

lemma calculate_bearing_range (lat1 lon1 lat2 lon2 : ℝ) :
    0 ≤ calculate_bearing lat1 lon1 lat2 lon2 ∧
    calculate_bearing lat1 lon1 lat2 lon2 < 360 := by
  simp only [calculate_bearing]
  exact pymod_bounds _ 360 (by norm_num)

lemma calculate_bearing_meridian_north (lat1 lat2 lon : ℝ) (h1 : -90 < lat1)
    (h12 : lat1 < lat2) (h2 : lat2 < 90) :
    calculate_bearing lat1 lon lat2 lon = 0 := by
  have hpi := Real.pi_pos
  have hd : radians lat2 - radians lat1 = (lat2 - lat1) * Real.pi / 180 := by
    unfold radians
    ring
  have hsub : 0 < lat2 - lat1 := by linarith
  have hdpos : 0 < (lat2 - lat1) * Real.pi / 180 := by positivity
  have hdlt : (lat2 - lat1) * Real.pi / 180 < Real.pi := by
    have hprod := mul_pos (show (0 : ℝ) < 180 - (lat2 - lat1) by linarith) hpi
    nlinarith
  have hsin : 0 < Real.sin (radians lat2 - radians lat1) := by
    rw [hd]
    exact Real.sin_pos_of_pos_of_lt_pi hdpos hdlt
  have hyval : Real.sin (radians lon - radians lon) * Real.cos (radians lat2) = 0 := by
    rw [sub_self, Real.sin_zero, zero_mul]
  have hxval : Real.cos (radians lat1) * Real.sin (radians lat2) -
      Real.sin (radians lat1) * Real.cos (radians lat2) *
        Real.cos (radians lon - radians lon) =
      Real.sin (radians lat2 - radians lat1) := by
    rw [sub_self, Real.cos_zero, Real.sin_sub]
    ring
  have hatan : atan2 0 (Real.sin (radians lat2 - radians lat1)) = 0 := by
    unfold atan2
    rw [if_pos hsin, zero_div, Real.arctan_zero]
  simp only [calculate_bearing]
  rw [hyval, hxval, hatan, degrees_zero, pymod_360_360]

lemma calculate_bearing_meridian_south (lat1 lat2 lon : ℝ) (h1 : -90 < lat1)
    (h12 : lat1 < lat2) (h2 : lat2 < 90) :
    calculate_bearing lat2 lon lat1 lon = 180 := by
  have hpi := Real.pi_pos
  have hd : radians lat2 - radians lat1 = (lat2 - lat1) * Real.pi / 180 := by
    unfold radians
    ring
  have hsub : 0 < lat2 - lat1 := by linarith
  have hdpos : 0 < (lat2 - lat1) * Real.pi / 180 := by positivity
  have hdlt : (lat2 - lat1) * Real.pi / 180 < Real.pi := by
    have hprod := mul_pos (show (0 : ℝ) < 180 - (lat2 - lat1) by linarith) hpi
    nlinarith
  have hsin : 0 < Real.sin (radians lat2 - radians lat1) := by
    rw [hd]
    exact Real.sin_pos_of_pos_of_lt_pi hdpos hdlt
  have hyval : Real.sin (radians lon - radians lon) * Real.cos (radians lat1) = 0 := by
    rw [sub_self, Real.sin_zero, zero_mul]
  have hxval : Real.cos (radians lat2) * Real.sin (radians lat1) -
      Real.sin (radians lat2) * Real.cos (radians lat1) *
        Real.cos (radians lon - radians lon) =
      Real.sin (radians lat1 - radians lat2) := by
    rw [sub_self, Real.cos_zero, Real.sin_sub]
    ring
  have hneg : Real.sin (radians lat1 - radians lat2) < 0 := by
    rw [show radians lat1 - radians lat2 = -(radians lat2 - radians lat1) by ring,
      Real.sin_neg]
    linarith
  have hatan : atan2 0 (Real.sin (radians lat1 - radians lat2)) = Real.pi := by
    unfold atan2
    rw [if_neg (not_lt.mpr hneg.le), if_pos hneg, if_pos le_rfl, zero_div,
      Real.arctan_zero, zero_add]
  simp only [calculate_bearing]
  rw [hyval, hxval, hatan, degrees_pi, pymod_540_360]

/-- C7 (amended): every returned bearing is normalized to `[0, 360)`, and the
180-degrees-mod-360 reverse relation holds for distinct points on a common
meridian (it fails for general distinct pairs, see the counterexample). -/
theorem calculate_bearing_amended :
    (∀ a b c d : ℝ, 0 ≤ calculate_bearing a b c d ∧ calculate_bearing a b c d < 360) ∧
    (∀ lat1 lat2 lon : ℝ, -90 < lat1 → lat1 < lat2 → lat2 < 90 →
      calculate_bearing lat1 lon lat2 lon = 0 ∧
      calculate_bearing lat2 lon lat1 lon = 180) :=
  ⟨fun a b c d => calculate_bearing_range a b c d,
   fun lat1 lat2 lon h1 h12 h2 =>
     ⟨calculate_bearing_meridian_north lat1 lat2 lon h1 h12 h2,
      calculate_bearing_meridian_south lat1 lat2 lon h1 h12 h2⟩⟩

/-- Witness for C7 (amended): concrete evaluation on the meridian
`lon = -74` between latitudes 10 and 20. -/
theorem calculate_bearing_amended_witness :
    (0 ≤ calculate_bearing 40 (-74) 41 (-75) ∧ calculate_bearing 40 (-74) 41 (-75) < 360) ∧
    ((-90 : ℝ) < 10 ∧ (10 : ℝ) < 20 ∧ (20 : ℝ) < 90) ∧
    (calculate_bearing 10 (-74) 20 (-74) = 0 ∧ calculate_bearing 20 (-74) 10 (-74) = 180) :=
  ⟨calculate_bearing_amended.1 40 (-74) 41 (-75),
   ⟨by norm_num, by norm_num, by norm_num⟩,
   calculate_bearing_amended.2 10 20 (-74) (by norm_num) (by norm_num) (by norm_num)⟩

lemma cb_equator_to_northeast : calculate_bearing 0 0 45 90 = 45 := by
  have h2 : (0 : ℝ) < Real.sqrt 2 / 2 := by positivity
  have hat : atan2 (Real.sqrt 2 / 2) (Real.sqrt 2 / 2) = Real.pi / 4 := by
    unfold atan2
    rw [if_pos h2, div_self h2.ne', Real.arctan_one]
  have hdeg : degrees (Real.pi / 4) = 45 := by
    unfold degrees
    field_simp
    ring
  simp only [calculate_bearing]
  rw [radians_zero, radians_90, radians_45, sub_zero]
  simp only [Real.sin_pi_div_two, Real.cos_zero, Real.sin_zero, one_mul, zero_mul,
    sub_zero, Real.cos_pi_div_four, Real.sin_pi_div_four]
  rw [hat, hdeg, pymod_405_360]

lemma cb_northeast_to_equator : calculate_bearing 45 90 0 0 = 270 := by
  have hat : atan2 (-1) 0 = -(Real.pi / 2) := by
    unfold atan2
    norm_num
  have hdeg : degrees (-(Real.pi / 2)) = -90 := by
    unfold degrees
    field_simp
    ring
  simp only [calculate_bearing]
  rw [radians_zero, radians_90, radians_45, zero_sub]
  simp only [Real.sin_neg, Real.sin_pi_div_two, Real.cos_zero, mul_one, neg_mul,
    one_mul, Real.sin_zero, mul_zero, Real.cos_neg, Real.cos_pi_div_two, zero_sub,
    sub_zero, neg_zero]
  rw [hat, hdeg, pymod_270_360]

/-- C7 (counterexample): for `A = (0, 0)` and `B = (45, 90)` the two bearings
are 45 and 270 degrees, whose difference is not within `1e-6` of 180 modulo
360. -/
theorem bearing_reverse_counterexample :
    calculate_bearing 0 0 45 90 = 45 ∧ calculate_bearing 45 90 0 0 = 270 ∧
    ∀ k : ℤ, (1e-6 : ℝ) <
      |calculate_bearing 0 0 45 90 - calculate_bearing 45 90 0 0 - (180 + 360 * k)| := by
  refine ⟨cb_equator_to_northeast, cb_northeast_to_equator, ?_⟩
  intro k
  rw [cb_equator_to_northeast, cb_northeast_to_equator]
  rcases le_or_lt k (-2) with hk | hk
  · have hkr : (k : ℝ) ≤ -2 := by exact_mod_cast hk
    have h1 : (315 : ℝ) ≤ 45 - 270 - (180 + 360 * k) := by linarith
    have h2 := le_abs_self ((45 : ℝ) - 270 - (180 + 360 * k))
    calc (1e-6 : ℝ) < 315 := by norm_num
    _ ≤ |45 - 270 - (180 + 360 * (k : ℝ))| := le_trans h1 h2
  · have hkr : (-1 : ℝ) ≤ k := by exact_mod_cast (by omega : (-1 : ℤ) ≤ k)
    have h1 : (45 : ℝ) - 270 - (180 + 360 * k) ≤ -45 := by linarith
    have h2 := neg_le_abs ((45 : ℝ) - 270 - (180 + 360 * k))
    calc (1e-6 : ℝ) < 45 := by norm_num
    _ ≤ |45 - 270 - (180 + 360 * (k : ℝ))| := by linarith

/-! ### Claims about the sector polygon's closure and rotation -/

lemma sector_point_shift (clat clon r u v : ℝ) (h : u = v + 2 * Real.pi) :
    sector_point clat clon r u = sector_point clat clon r v := by
  unfold sector_point
  rw [h, Real.cos_add_two_pi, Real.sin_add_two_pi]

/-- C1: for every sector input with `0 < widthDegrees < 360` and
`maxRadiusMiles > minRadiusMiles > 0`, the polygon returned by
`create_sector_polygon` is closed: its first point equals its last point
exactly (hence within the 1e-9-degree tolerance), and both are the
inner-radius point at the left bearing. -/
theorem sector_polygon_closed (center_lat center_lon bearing_lat bearing_lon
    width_degrees min_radius_miles max_radius_miles rotation_degrees : ℝ)
    (_hw : 0 < width_degrees) (_hw2 : width_degrees < 360)
    (_h0 : 0 < min_radius_miles) (_hlt : min_radius_miles < max_radius_miles) :
    (create_sector_polygon center_lat center_lon bearing_lat bearing_lon
      width_degrees min_radius_miles max_radius_miles rotation_degrees).head? =
      some (sector_point center_lat center_lon (min_radius_miles / 69)
        (sector_bearing_center center_lat center_lon bearing_lat bearing_lon
          rotation_degrees - radians (width_degrees / 2))) ∧
    (create_sector_polygon center_lat center_lon bearing_lat bearing_lon
      width_degrees min_radius_miles max_radius_miles rotation_degrees).getLast? =
      some (sector_point center_lat center_lon (min_radius_miles / 69)
        (sector_bearing_center center_lat center_lon bearing_lat bearing_lon
          rotation_degrees - radians (width_degrees / 2))) := by
  constructor
  · simp only [create_sector_polygon]
    rw [List.range_succ_eq_map, List.map_cons, List.cons_append, List.cons_append,
      List.head?_cons]
    norm_num
  · simp only [create_sector_polygon]
    rw [List.getLast?_concat]

/-- Witness for C1: the Day 15 New Hope Bridge sector (30 degrees wide,
10-25 miles) is closed. -/
theorem sector_polygon_closed_witness :
    ((0 : ℝ) < 30 ∧ (30 : ℝ) < 360 ∧ (0 : ℝ) < 10 ∧ (10 : ℝ) < 25) ∧
    ((create_sector_polygon 40.364551 (-74.950404) 40.365207 (-74.947155)
        30 10 25 0).head? =
      some (sector_point 40.364551 (-74.950404) (10 / 69)
        (sector_bearing_center 40.364551 (-74.950404) 40.365207 (-74.947155) 0 -
          radians (30 / 2))) ∧
     (create_sector_polygon 40.364551 (-74.950404) 40.365207 (-74.947155)
        30 10 25 0).getLast? =
      some (sector_point 40.364551 (-74.950404) (10 / 69)
        (sector_bearing_center 40.364551 (-74.950404) 40.365207 (-74.947155) 0 -
          radians (30 / 2)))) :=
  ⟨⟨by norm_num, by norm_num, by norm_num, by norm_num⟩,
   sector_polygon_closed 40.364551 (-74.950404) 40.365207 (-74.947155) 30 10 25 0
     (by norm_num) (by norm_num) (by norm_num) (by norm_num)⟩

/-- C6: for every sector input, the polygon produced with
`rotationDegrees = 360` equals, point for point, the polygon produced with
`rotationDegrees = 0` and all other parameters identical. -/
theorem sector_rotation_360_round_trip (center_lat center_lon bearing_lat
    bearing_lon width_degrees min_radius_miles max_radius_miles : ℝ) :
    create_sector_polygon center_lat center_lon bearing_lat bearing_lon
      width_degrees min_radius_miles max_radius_miles 360 =
    create_sector_polygon center_lat center_lon bearing_lat bearing_lon
      width_degrees min_radius_miles max_radius_miles 0 := by
  have hbc : sector_bearing_center center_lat center_lon bearing_lat bearing_lon 360 =
      sector_bearing_center center_lat center_lon bearing_lat bearing_lon 0 +
        2 * Real.pi := by
    unfold sector_bearing_center radians
    ring
  simp only [create_sector_polygon, hbc]
  congr 1
  congr 1
  · exact List.map_congr_left fun i _ =>
      sector_point_shift _ _ _ _ _ (by ring)
  · exact List.map_congr_left fun i _ =>
      sector_point_shift _ _ _ _ _ (by ring)
  · exact congrArg (fun p => [p]) (sector_point_shift _ _ _ _ _ (by ring))

end PyTest
